import Mathlib

/-!
Verification development for the UTM-Tracking repository.

The repository is a Node/Express service that attributes inbound WhatsApp
(Gallabox) messages to prior marketing-link clicks stored in Firestore, and
exports engaged sessions to Google Sheets.  This file shallowly embeds the
claim-relevant code paths:

* the multi-database webhook handler of src/unnamed/part_003 (phone
  normalization, context-token resolution, the gallabox-id and phone matching
  strategies, the engagement transaction, the store-click transaction);
* the hybrid webhook handler and the unconditional store-click of
  src/server.js;
* the export sync of src/google-sheets-sync.js (query, row conversion,
  append and mark-synced steps) and the realtime listener of
  src/unnamed/part_000.

JavaScript strings that may be null / undefined / empty are modelled as Lean
String with the empty string standing for every falsy value, matching how the
code only ever tests them with truthiness and the logical-or operator.
Firestore server timestamps and Dates are modelled as Nat milliseconds;
fields that may be unset are Option Nat.  A Firestore collection is an
association list from document id to document data; Firestore document ids
are unique, which theorems needing it state as a Nodup hypothesis on keys.
-/

/-- JavaScript logical-or on strings: the left operand unless it is falsy
(empty), matching how the source chains fallback values with the or operator. -/
def jsOr (a b : String) : String := if a = "" then b else a

/-- A UTM parameter bag, standing for the original_params object stored on a
click document (src/server.js store-click payload, part_003 standardized
structure). -/
structure Params where
  source : String := ""
  medium : String := ""
  campaign : String := ""
  content : String := ""
  placement : String := ""
deriving Repr, DecidableEq

/-- A Firestore utmClicks document (ClickSession).  Field names follow the
source.  String fields use the empty string for absent values; timestamps are
Option Nat milliseconds. -/
structure Session where
  source : String := ""
  medium : String := ""
  campaign : String := ""
  content : String := ""
  placement : String := ""
  website : String := ""
  phoneNumber : String := ""
  hasEngaged : Bool := false
  syncedToSheets : Bool := false
  timestamp : Option Nat := none
  click_time : Option Nat := none
  engagedAt : Option Nat := none
  lastSynced : Option Nat := none
  lastMessage : String := ""
  contactId : String := ""
  conversationId : String := ""
  contactName : String := ""
  attribution_source : String := ""
  original_params : Option Params := none
deriving Repr, DecidableEq

/-- A Firestore collection: association list from document id to data.
Lookup returns the first entry with the given id. -/
def lookFr : List (String × Session) → String → Option Session
  | [], _ => none
  | p :: ps, id => if p.1 = id then some p.2 else lookFr ps id

/-- Firestore set on a document reference: replaces the document if present,
otherwise creates it. -/
def setDoc : List (String × Session) → String → Session → List (String × Session)
  | [], id, s => [(id, s)]
  | p :: ps, id, s => if p.1 = id then (id, s) :: ps else p :: setDoc ps id s

/-- Firestore update on a document reference, modelled as applying a field
transformer to the stored document (update fails only on a missing document;
callers in this file check existence first, matching the transactional reads
in the source). -/
def updateDocWith (f : Session → Session) : List (String × Session) → String → List (String × Session)
  | [], _ => []
  | p :: ps, id => if p.1 = id then (p.1, f p.2) :: ps else p :: updateDocWith f ps id

/-- Sort key used by the orderBy timestamp desc queries. -/
def tsKey (p : String × Session) : Nat := p.2.timestamp.getD 0

/-- Insert into a list already sorted by descending timestamp. -/
def insertTsDesc (x : String × Session) : List (String × Session) → List (String × Session)
  | [] => [x]
  | y :: ys => if tsKey x ≤ tsKey y then y :: insertTsDesc x ys else x :: y :: ys

/-- Insertion sort by descending timestamp, modelling orderBy timestamp desc. -/
def sortTsDesc : List (String × Session) → List (String × Session)
  | [] => []
  | x :: xs => insertTsDesc x (sortTsDesc xs)

/-!
Part A: the multi-database Gallabox webhook handler of src/unnamed/part_003.
-/

/-- Phone number normalization of part_003 lines 137-148: the raw WhatsApp
sender is first stripped of its leading run of zeros (replace of the regex
caret zero-plus with the empty string), then prefixed with the country code
91 unless the result is empty or already starts with 91. -/
def stripLeadingZeros (s : String) : String := ⟨s.data.dropWhile (fun c => c = '0')⟩

/-- JavaScript startsWith for the fixed country code 91. -/
def startsWith91 (s : String) : Bool := s.data.take 2 = ['9', '1']

def normalizePhone (raw : String) : String :=
  let senderPhone := stripLeadingZeros raw
  if senderPhone = "" then senderPhone
  else if startsWith91 senderPhone then senderPhone
  else "91" ++ senderPhone

/-- Phone normalization of src/app/server.js line 118: the leading run of
zeros, when present, is replaced by the string 91; a number without leading
zeros is left unchanged. -/
def normalizePhoneApp (raw : String) : String :=
  if raw.data.take 1 = ['0'] then "91" ++ stripLeadingZeros raw else raw

/-- The record carried by a decoded context token: a small JSON object with a
session_id and UTM attributes (part_003 lines 165-178).  The empty string
stands for an absent field. -/
structure Ctx where
  session_id : String := ""
  source : String := ""
  medium : String := ""
  campaign : String := ""
  content : String := ""
  website : String := ""
deriving Repr, DecidableEq

/-- The utmData object built from a decoded context token, part_003 line 170
(utmData becomes the decoded context record). -/
def ctxUtm (c : Ctx) : Session :=
  { source := c.source, medium := c.medium, campaign := c.campaign,
    content := c.content, website := c.website }

/-- The initial utmData object of part_003 lines 155-160 before any matching
strategy runs. -/
def directUtm : Session :=
  { source := "direct_message", medium := "whatsapp", campaign := "organic",
    content := "none" }

/-- Context parsing of part_003 lines 164-178: decoding failures are caught
and treated as no context; a decoded record is only adopted when its
session_id is truthy (non-empty).  The base64 and JSON decoding itself is an
out-of-scope library collaborator, abstracted as the decode argument. -/
def ctxResolve (decode : String → Option Ctx) (tok : String) : Option Ctx :=
  if tok = "" then none
  else match decode tok with
    | none => none
    | some c => if c.session_id = "" then none else some c

/-- Matching Priority 2 of part_003 lines 193-221: the query for the
most-recently-created session with hasEngaged false created in the last five
minutes (300000 ms), ordered newest first, limited to five, taking the first
result.  Documents without a timestamp are excluded by the range filter. -/
def gallaboxIdMatch (coll : List (String × Session)) (now : Nat) : Option (String × Session) :=
  ((sortTsDesc (coll.filter fun p =>
      !p.2.hasEngaged && (match p.2.timestamp with
        | some t => decide (now - 5 * 60 * 1000 ≤ t)
        | none => false))).take 5).head?

/-- Matching Priority 3 of part_003 lines 223-238: the query for a session
whose phoneNumber equals the normalized sender phone with hasEngaged false,
ordered newest first, limit 1.  Ordering by timestamp excludes documents
without that field. -/
def phoneMatch (coll : List (String × Session)) (phone : String) : Option (String × Session) :=
  ((sortTsDesc (coll.filter fun p =>
      (p.2.phoneNumber == phone) && !p.2.hasEngaged && p.2.timestamp.isSome)).take 1).head?

/-- The updateData object of the engagement commit, part_003 lines 242-253,
applied to an existing document by the transactional update: hasEngaged is
set unconditionally, engagedAt is overwritten with the server timestamp,
syncedToSheets is reset to false, and contactName and lastMessage are only
included when truthy (their conditional spreads). -/
def engUpdate (phone : String) (now : Nat)
    (attr website contactId conversationId contactName messageContent : String)
    (s : Session) : Session :=
  { s with hasEngaged := true, phoneNumber := phone, engagedAt := some now,
           syncedToSheets := false, attribution_source := attr, website := website,
           contactId := contactId, conversationId := conversationId,
           contactName := if contactName = "" then s.contactName else contactName,
           lastMessage := if messageContent = "" then s.lastMessage else messageContent }

/-- The engagement transaction of part_003 lines 255-274: re-read the
document inside the transaction; if it exists apply updateData as an update
(with no check of the stored hasEngaged flag), otherwise create it from the
resolved utmData spread under updateData, with a fresh creation timestamp. -/
def commitEngagement (coll : List (String × Session)) (sid : String) (utm : Session)
    (phone : String) (now : Nat)
    (attr website contactId conversationId contactName messageContent : String) :
    List (String × Session) :=
  match lookFr coll sid with
  | some _ =>
      updateDocWith (engUpdate phone now attr website contactId conversationId contactName messageContent) coll sid
  | none =>
      setDoc coll sid
        { (engUpdate phone now attr website contactId conversationId contactName messageContent
            { utm with website := website }) with timestamp := some now }

/-- The two Firestore databases of part_003 (default American Hairline and
Alchemane), each holding a utmClicks collection. -/
structure Stores where
  americanhairline : List (String × Session) := []
  alchemane : List (String × Session) := []
deriving Repr, DecidableEq

/-- getCollectionForWebsite of part_003 lines 100-102. -/
def getColl (st : Stores) (w : String) : List (String × Session) :=
  if w = "alchemane" then st.alchemane else st.americanhairline

/-- Writing back the selected collection of a Stores value. -/
def setColl (st : Stores) (w : String) (c : List (String × Session)) : Stores :=
  if w = "alchemane" then { st with alchemane := c } else { st with americanhairline := c }

/-- An inbound Gallabox webhook event as read by part_003 lines 136-141:
whatsapp.from, contactId at top level or nested under contact, the
conversation id, contact name and message body.  Empty string means the field
is absent. -/
structure GEvent where
  whatsappFrom : String := ""
  eventContactId : String := ""
  contactInnerId : String := ""
  conversationId : String := ""
  contactName : String := ""
  messageBody : String := ""
  context : String := ""
deriving Repr, DecidableEq

/-- The response of the part_003 webhook handler: 400 for a missing phone,
200 skipped_direct_message, or 200 processed carrying the session id, the
resolved source, the attribution tag and the website. -/
inductive GResp where
  | badRequest
  | skippedDirect (website : String)
  | processed (sessionId source attr website : String)
deriving Repr, DecidableEq

/-- The part_003 gallabox-webhook handler (lines 131-296): phone extraction
and normalization, the 400 guard, context-token resolution, the
direct-message skip, the gallabox-id and phone matching priorities, and the
engagement transaction.  The handler returns the HTTP outcome and the new
store state. -/
def part003Handler (decode : String → Option Ctx) (e : GEvent) (stores : Stores) (now : Nat) :
    GResp × Stores :=
  let contactId := jsOr e.eventContactId e.contactInnerId
  let conversationId := e.conversationId
  let contactName := e.contactName
  let messageContent := jsOr e.messageBody "No text content"
  let normalizedPhone := normalizePhone e.whatsappFrom
  if normalizedPhone = "" then (GResp.badRequest, stores)
  else
    let ctx? := ctxResolve decode e.context
    let sessionId0 := match ctx? with | some c => c.session_id | none => ""
    let utm0 := match ctx? with | some c => ctxUtm c | none => directUtm
    let attr0 := match ctx? with | some _ => "context" | none => "direct"
    let website := match ctx? with | some c => jsOr c.website "americanhairline" | none => "americanhairline"
    if utm0.source = "direct_message" then (GResp.skippedDirect website, stores)
    else
      let coll := getColl stores website
      let g? := if sessionId0 = "" ∧ (contactId ≠ "" ∨ conversationId ≠ "") then
                  gallaboxIdMatch coll now
                else none
      let sessionId1 := match g? with | some (id, _) => id | none => sessionId0
      let utm1 := match g? with | some (_, s) => s | none => utm0
      let attr1 := match g? with | some _ => "gallabox_id_match" | none => attr0
      let coll1 := match g? with
        | some (id, _) =>
            updateDocWith
              (fun s => { s with contactId := contactId, conversationId := conversationId,
                                 contactName := contactName }) coll id
        | none => coll
      let stores1 := setColl stores website coll1
      let p? := if sessionId1 = "" then phoneMatch coll1 normalizedPhone else none
      let sessionId2 := match p? with | some (id, _) => id | none => sessionId1
      let utm2 := match p? with | some (_, s) => s | none => utm1
      let attr2 := match p? with | some _ => "phone_match" | none => attr1
      if sessionId2 = "" then
        (GResp.processed "not_matched" utm2.source attr2 website, stores1)
      else
        let coll2 := commitEngagement coll1 sessionId2 utm2 normalizedPhone now
          attr2 website contactId conversationId contactName messageContent
        (GResp.processed sessionId2 utm2.source attr2 website, setColl stores1 website coll2)

/-- The waterfall of matching priorities 2 and 3 in isolation (part_003 lines
193-238), entered with no session id resolved: a gallabox-id match when a
contact or conversation id is present, otherwise the phone match, otherwise
no match (direct). -/
def resolve23 (coll : List (String × Session)) (contactId conversationId phone : String)
    (now : Nat) : Option (String × Session × String) :=
  match (if contactId ≠ "" ∨ conversationId ≠ "" then gallaboxIdMatch coll now else none) with
  | some (id, s) => some (id, s, "gallabox_id_match")
  | none =>
      match phoneMatch coll phone with
      | some (id, s) => some (id, s, "phone_match")
      | none => none

/-!
Part B: the store-click endpoints.
-/

/-- The transactional store-click of src/server.js lines 233-260 (and the
same pattern in part_001 and part_003): inside a transaction, read the
document; only when it does not exist, set it with the submitted UTM payload,
a server creation timestamp, hasEngaged false and syncedToSheets false. -/
def storeClickTx (coll : List (String × Session)) (sid : String) (utm : Session) (now : Nat) :
    List (String × Session) :=
  match lookFr coll sid with
  | some _ => coll
  | none =>
      setDoc coll sid
        { utm with timestamp := some now, hasEngaged := false, syncedToSheets := false }

/-- The unconditional store-click of src/server.js lines 482-496 (also
part_002 and part_004): a plain set on the document reference, replacing any
existing document with the submitted payload plus fresh timestamp,
hasEngaged false and syncedToSheets false. -/
def storeClickSet (coll : List (String × Session)) (sid : String) (utm : Session) (now : Nat) :
    List (String × Session) :=
  setDoc coll sid
    { utm with timestamp := some now, hasEngaged := false, syncedToSheets := false }

/-!
Part C: the hybrid webhook handler of src/server.js lines 406-479.
-/

/-- An inbound event as read by the hybrid handler: whatsapp.from with the
top-level sender as fallback, the message body, and the raw context token. -/
structure HEvent where
  whatsappFrom : String := ""
  sender : String := ""
  messageBody : String := ""
  context : String := ""
deriving Repr, DecidableEq

/-- Responses of the hybrid handler: 400 invalid context, 200 processed, or
the 500 produced when the final update hits a missing document. -/
inductive HResp where
  | invalidContext
  | processed (sessionId source : String)
  | internalError
deriving Repr, DecidableEq

/-- The default utmData of the hybrid handler (src/server.js lines 413-418). -/
def hybridUtm : Session :=
  { source := "direct", medium := "organic", campaign := "none", content := "none" }

/-- The hybrid gallabox-webhook handler of src/server.js lines 406-479.  It
performs no missing-phone check: with a context token it decodes it (400 on a
decode failure) and takes the decoded session_id; without one it creates a
fresh session with hasEngaged true and the sender phone as stored.  Both
paths then run the common update on the document (which only succeeds when
the document exists).  newId stands for crypto.randomUUID. -/
def hybridHandler (decode : String → Option Ctx) (e : HEvent)
    (coll : List (String × Session)) (now : Nat) (newId : String) :
    HResp × List (String × Session) :=
  let messageContent := jsOr e.messageBody "No text content"
  let senderPhone := jsOr e.whatsappFrom e.sender
  let commonUpdate : Session → Session := fun s =>
    let s1 := { s with hasEngaged := true, phoneNumber := senderPhone, engagedAt := some now }
    if messageContent = "" ∨ messageContent = "No text content" then s1
    else { s1 with lastMessage := messageContent }
  if e.context ≠ "" then
    match decode e.context with
    | none => (HResp.invalidContext, coll)
    | some c =>
        let sessionId := c.session_id
        let utm := ctxUtm c
        let afterSpread : Session → Session := fun s =>
          { (commonUpdate s) with
              source := utm.source, medium := utm.medium,
              campaign := utm.campaign, content := utm.content, website := utm.website }
        match lookFr coll sessionId with
        | none => (HResp.internalError, coll)
        | some _ =>
            (HResp.processed sessionId utm.source, updateDocWith afterSpread coll sessionId)
  else
    let sessionId := newId
    let created : Session :=
      { hybridUtm with
          timestamp := some now, hasEngaged := true,
          phoneNumber := senderPhone, lastMessage := messageContent,
          engagedAt := some now, syncedToSheets := false }
    let coll1 := setDoc coll sessionId created
    let afterSpread : Session → Session := fun s =>
      { (commonUpdate s) with
          source := hybridUtm.source, medium := hybridUtm.medium,
          campaign := hybridUtm.campaign, content := hybridUtm.content }
    match lookFr coll1 sessionId with
    | none => (HResp.internalError, coll1)
    | some _ =>
        (HResp.processed sessionId hybridUtm.source, updateDocWith afterSpread coll1 sessionId)

/-!
Part D: the Google Sheets export sync of src/google-sheets-sync.js, and the
realtime listener of src/unnamed/part_000.
-/

/-- JavaScript substring from index zero: the first n characters. -/
def jsSubstr (s : String) (n : Nat) : String := ⟨s.data.take n⟩

/-- JavaScript replace of every newline by a space. -/
def replNl (s : String) : String := ⟨s.data.map (fun c => if c = '\n' then ' ' else c)⟩

/-- Row conversion of a single document, src/google-sheets-sync.js lines
35-56: each of the fourteen columns with its explicit fallback value.  Date
rendering (toISOString) is an out-of-scope library collaborator abstracted as
the iso argument; now stands for the new Date() fallback when the document
has no click_time and no timestamp. -/
def toSheetRow (iso : Nat → String) (now : Nat) (d : Session) : List String :=
  let tsMs := match d.click_time with
    | some t => t
    | none => match d.timestamp with
      | some t => t
      | none => now
  let engagedTs := match d.engagedAt with
    | some t => iso t
    | none => "N/A"
  let op := d.original_params.getD {}
  [ iso tsMs,
    jsOr d.phoneNumber "N/A",
    jsOr op.source (jsOr d.source "direct"),
    jsOr op.medium (jsOr d.medium "organic"),
    jsOr op.campaign (jsOr d.campaign "none"),
    jsOr op.content (jsOr d.content "none"),
    jsOr op.placement (jsOr d.placement "N/A"),
    if d.hasEngaged then "✅ YES" else "❌ NO",
    engagedTs,
    jsOr d.attribution_source "unknown",
    jsOr d.contactId "N/A",
    jsOr d.conversationId "N/A",
    jsSubstr (jsOr d.contactName "Anonymous") 100,
    replNl (jsSubstr (jsOr d.lastMessage "No text") 150) ]

/-- convertToSheetRows of src/google-sheets-sync.js lines 25-58: documents
whose source is direct_message are mapped to null and filtered out; every
other document becomes a fourteen-column row. -/
def convertToSheetRows (iso : Nat → String) (now : Nat) (docs : List Session) :
    List (List String) :=
  docs.filterMap fun d =>
    if d.source = "direct_message" then none else some (toSheetRow iso now d)

/-- The sync query predicate of src/google-sheets-sync.js lines 127-132:
hasEngaged true, syncedToSheets false, source not direct_message. -/
def engagedFilter (p : String × Session) : Bool :=
  p.2.hasEngaged && !p.2.syncedToSheets && !(p.2.source == "direct_message")

/-- The batched mark-synced write of src/google-sheets-sync.js lines 143-161:
every document of the queried snapshot (limit 250) whose source is not
direct_message gets syncedToSheets true and a lastSynced server timestamp. -/
def markSynced (coll : List (String × Session)) (now : Nat) : List (String × Session) :=
  let snapshot := (coll.filter engagedFilter).take 250
  let ids : List String := (snapshot.filter fun p => !(p.2.source == "direct_message")).map (·.1)
  coll.map fun p =>
    if p.1 ∈ ids then (p.1, { p.2 with syncedToSheets := true, lastSynced := some now }) else p

/-- One externally visible step of a sync run: an append-rows call to the
spreadsheet, or a committed batch marking documents synced. -/
inductive SyncStep where
  | appendRows (rows : List (List String))
  | markDocs (ids : List String)
deriving Repr, DecidableEq

/-- The step sequence of one attempt of syncDatabaseToSheet,
src/google-sheets-sync.js lines 120-162: query the snapshot (limit 250),
convert rows, return early when nothing to sync, otherwise append the rows
and only then commit the batch that marks the documents synced. -/
def syncDatabaseToSheetSteps (iso : Nat → String) (now : Nat)
    (coll : List (String × Session)) : List SyncStep :=
  if ((coll.filter engagedFilter).take 250).isEmpty then []
  else if (convertToSheetRows iso now (((coll.filter engagedFilter).take 250).map (·.2))).isEmpty then []
  else
    [SyncStep.appendRows (convertToSheetRows iso now (((coll.filter engagedFilter).take 250).map (·.2))),
     SyncStep.markDocs ((((coll.filter engagedFilter).take 250).filter
        fun p => !(p.2.source == "direct_message")).map (·.1))]

/-- The step sequence of one firing of the realtime listener of
src/google-sheets-sync.js lines 219-261: same order, append first, then
commit the marking batch. -/
def gssRealtimeSteps (iso : Nat → String) (now : Nat)
    (snapshot : List (String × Session)) : List SyncStep :=
  if snapshot.isEmpty then []
  else if (convertToSheetRows iso now (snapshot.map (·.2))).isEmpty then []
  else
    [SyncStep.appendRows (convertToSheetRows iso now (snapshot.map (·.2))),
     SyncStep.markDocs ((snapshot.filter fun p => !(p.2.source == "direct_message")).map (·.1))]

/-- The step sequence of one firing of the realtime listener of
src/unnamed/part_000 lines 248-301: the documents to sync are first all
marked syncedToSheets true (the source comments that this is done before the
sheets call on purpose), and only afterwards are the rows appended.  The row
conversion of that revision is abstracted as the rows argument since only the
ordering of the two store-visible steps matters here. -/
def part000RealtimeSteps (rows : List Session → List (List String))
    (docsToSync : List (String × Session)) : List SyncStep :=
  if docsToSync.isEmpty then []
  else
    [SyncStep.markDocs (docsToSync.map (·.1)),
     SyncStep.appendRows (rows (docsToSync.map (·.2)))]


/-!
Helper lemmas about the query combinators.
-/

theorem lookFr_updateDocWith (f : Session → Session) (coll : List (String × Session)) (id : String) :
    lookFr (updateDocWith f coll id) id = (lookFr coll id).map f := by
  induction coll with
  | nil => rfl
  | cons p ps ih =>
    by_cases h : p.1 = id
    · simp [updateDocWith, lookFr, h]
    · simp [updateDocWith, lookFr, h, ih]

theorem lookFr_setDoc (coll : List (String × Session)) (id : String) (s : Session) :
    lookFr (setDoc coll id s) id = some s := by
  induction coll with
  | nil => simp [setDoc, lookFr]
  | cons p ps ih =>
    by_cases h : p.1 = id
    · simp [setDoc, lookFr, h]
    · simp [setDoc, lookFr, h, ih]

theorem mem_insertTsDesc {a x : String × Session} {l : List (String × Session)} :
    a ∈ insertTsDesc x l ↔ a = x ∨ a ∈ l := by
  induction l with
  | nil => simp [insertTsDesc]
  | cons y ys ih =>
    by_cases h : tsKey x ≤ tsKey y
    · simp [insertTsDesc, h, ih]
      tauto
    · simp [insertTsDesc, h]

theorem mem_sortTsDesc {a : String × Session} {l : List (String × Session)} :
    a ∈ sortTsDesc l ↔ a ∈ l := by
  induction l with
  | nil => simp [sortTsDesc]
  | cons x xs ih =>
    simp [sortTsDesc, mem_insertTsDesc, ih]

theorem sortTsDesc_nil_iff {l : List (String × Session)} :
    sortTsDesc l = [] ↔ l = [] := by
  cases l with
  | nil => simp [sortTsDesc]
  | cons x xs =>
    simp only [sortTsDesc]
    constructor
    · intro h
      have : x ∈ insertTsDesc x (sortTsDesc xs) := mem_insertTsDesc.mpr (Or.inl rfl)
      rw [h] at this
      cases this
    · intro h
      cases h

theorem mem_of_head? {α : Type} {l : List α} {a : α} (h : l.head? = some a) : a ∈ l := by
  cases l with
  | nil => cases h
  | cons x xs =>
    have hx : x = a := by simpa using h
    subst hx
    exact List.mem_cons_self x xs

theorem head?_take_succ {α : Type} {l : List α} {n : Nat} :
    (l.take (n + 1)).head? = l.head? := by
  cases l <;> rfl

theorem head?_of_head?_take {α : Type} {l : List α} {n : Nat} {a : α}
    (h : (l.take n).head? = some a) : l.head? = some a := by
  cases n with
  | zero => cases h
  | succ m => rw [head?_take_succ] at h; exact h

theorem sortTsDesc_head_max {l : List (String × Session)} {a : String × Session}
    (h : (sortTsDesc l).head? = some a) : ∀ b ∈ l, tsKey b ≤ tsKey a := by
  induction l generalizing a with
  | nil => cases h
  | cons x xs ih =>
    intro b hb
    simp only [sortTsDesc] at h
    rcases hsx : sortTsDesc xs with _ | ⟨z, zs⟩
    · rw [hsx] at h
      simp only [insertTsDesc, List.head?] at h
      have ha : x = a := by simpa using h
      subst ha
      rcases List.mem_cons.mp hb with rfl | hbxs
      · exact Nat.le_refl _
      · have hnil : xs = [] := sortTsDesc_nil_iff.mp hsx
        rw [hnil] at hbxs
        cases hbxs
    · rw [hsx] at h
      by_cases hc : tsKey x ≤ tsKey z
      · rw [insertTsDesc, if_pos hc] at h
        have ha : z = a := by simpa using h
        subst ha
        rcases List.mem_cons.mp hb with rfl | hbxs
        · exact hc
        · exact ih (by rw [hsx]; rfl) b hbxs
      · rw [insertTsDesc, if_neg hc] at h
        have ha : x = a := by simpa using h
        subst ha
        rcases List.mem_cons.mp hb with rfl | hbxs
        · exact Nat.le_refl _
        · have hz := ih (show (sortTsDesc xs).head? = some z by rw [hsx]; rfl) b hbxs
          exact Nat.le_trans hz (Nat.le_of_not_le hc)

theorem gallaboxIdMatch_sound {coll : List (String × Session)} {now : Nat}
    {id : String} {s : Session} (h : gallaboxIdMatch coll now = some (id, s)) :
    s.hasEngaged = false ∧
    ∃ t, s.timestamp = some t ∧ now - 5 * 60 * 1000 ≤ t ∧
      ∀ q ∈ coll, q.2.hasEngaged = false → ∀ u, q.2.timestamp = some u →
        now - 5 * 60 * 1000 ≤ u → u ≤ t := by
  unfold gallaboxIdMatch at h
  replace h := head?_of_head?_take h
  have hmem : (id, s) ∈ coll.filter fun p =>
      !p.2.hasEngaged && (match p.2.timestamp with
        | some t => decide (now - 5 * 60 * 1000 ≤ t)
        | none => false) :=
    mem_sortTsDesc.mp (mem_of_head? h)
  have hf := (List.mem_filter.mp hmem).2
  simp only [Bool.and_eq_true, Bool.not_eq_true'] at hf
  obtain ⟨hEng, hw⟩ := hf
  rcases hts : s.timestamp with _ | t
  · rw [hts] at hw
    simp at hw
  · rw [hts] at hw
    refine ⟨hEng, t, rfl, by simpa using hw, ?_⟩
    intro q hq hqe u hqu hcu
    have hqf : q ∈ coll.filter fun p =>
        !p.2.hasEngaged && (match p.2.timestamp with
          | some t => decide (now - 5 * 60 * 1000 ≤ t)
          | none => false) := by
      refine List.mem_filter.mpr ⟨hq, ?_⟩
      rw [hqe, hqu]
      simpa using hcu
    have hmax := sortTsDesc_head_max h q hqf
    simpa [tsKey, hqu, hts] using hmax

theorem gallaboxIdMatch_none {coll : List (String × Session)} {now : Nat}
    (h : ∀ p ∈ coll, p.2.hasEngaged = false → ∀ t, p.2.timestamp = some t →
      t < now - 5 * 60 * 1000) :
    gallaboxIdMatch coll now = none := by
  unfold gallaboxIdMatch
  have hfil : (coll.filter fun p =>
      !p.2.hasEngaged && (match p.2.timestamp with
        | some t => decide (now - 5 * 60 * 1000 ≤ t)
        | none => false)) = [] := by
    rw [List.filter_eq_nil_iff]
    intro p hp
    rcases he : p.2.hasEngaged with _ | _
    · rcases ht : p.2.timestamp with _ | t
      · simp [ht]
      · have := h p hp he t ht
        simp [ht, Nat.not_le.mpr this]
    · simp [he]
  rw [hfil]
  rfl

theorem phoneMatch_sound {coll : List (String × Session)} {phone id : String}
    {s : Session} (h : phoneMatch coll phone = some (id, s)) :
    s.phoneNumber = phone ∧ s.hasEngaged = false := by
  unfold phoneMatch at h
  replace h := head?_of_head?_take h
  have hmem := mem_sortTsDesc.mp (mem_of_head? h)
  have hf := (List.mem_filter.mp hmem).2
  simp only [Bool.and_eq_true, Bool.not_eq_true', beq_iff_eq] at hf
  exact ⟨hf.1.1, hf.1.2⟩

/-!
Claim theorems.
-/

/-- C6, counterexample: the claim asserts that the spec scenario input
9198765432 normalizes to 919198765432, but stripping the leading zeros of
9198765432 leaves a number that already starts with 91, so the normalization
of part_003 returns it unchanged and the claimed value is wrong. -/
theorem c6_normalized_example_counterexample :
    normalizePhone "9198765432" = "9198765432" ∧
    normalizePhone "9198765432" ≠ "919198765432" := by
  constructor <;> decide

/-- C6 (amended): normalization strips the leading run of zeros and prefixes
91 only when the result does not already start with 91, and the phone-match
query of part_003 compares the stored phoneNumber against exactly the
normalized value; for the spec scenario input 9198765432 the normalized
number is 9198765432 itself, not 919198765432 (the input already starts with
91); the app/server.js variant also leaves that input unchanged. -/
theorem c6_normalization_amended :
    (∀ coll phone id s, phoneMatch coll phone = some (id, s) →
        s.phoneNumber = phone ∧ s.hasEngaged = false) ∧
    normalizePhone "9198765432" = "9198765432" ∧
    normalizePhone "09198765432" = "9198765432" ∧
    normalizePhone "8765" = "918765" ∧
    normalizePhoneApp "9198765432" = "9198765432" := by
  refine ⟨?_, by decide, by decide, by decide, by decide⟩
  intro coll phone id s h
  exact phoneMatch_sound h

/-- Witness for c6_normalization_amended: the phone-match conjunct applied to
a one-session store. -/
theorem c6_normalization_amended_witness :
    ({ phoneNumber := "919", hasEngaged := false, timestamp := some 3 : Session }).phoneNumber = "919" ∧
    ({ phoneNumber := "919", hasEngaged := false, timestamp := some 3 : Session }).hasEngaged = false :=
  c6_normalization_amended.1
    [("p1", { phoneNumber := "919", hasEngaged := false, timestamp := some 3 })] "919" "p1"
    { phoneNumber := "919", hasEngaged := false, timestamp := some 3 } (by decide)

/-- C7, counterexample: the hybrid webhook handler of src/server.js lines
406-479 performs no missing-phone check.  An event with no extractable
sender phone and no context token is answered 200 processed and a new
session document is written, contradicting the claim that every handler
returns 400 with no store mutation. -/
theorem c7_hybrid_missing_phone_counterexample :
    (hybridHandler (fun _ => none)
        { whatsappFrom := "", sender := "", messageBody := "", context := "" } [] 5 "u1").1 =
      HResp.processed "u1" "direct" ∧
    (hybridHandler (fun _ => none)
        { whatsappFrom := "", sender := "", messageBody := "", context := "" } [] 5 "u1").2 ≠ [] := by
  constructor <;> decide

/-- C7 (amended): in the multi-database handler of part_003 (and in the first
src/server.js handler revision) a webhook event whose sender phone normalizes
to the empty value is answered HTTP 400 and the store is returned untouched;
the hybrid handler revision of src/server.js lacks this check and instead
creates a session with an empty phone for a phoneless contextless event. -/
theorem c7_missing_phone_amended :
    ∀ decode e stores now,
      normalizePhone e.whatsappFrom = "" →
      part003Handler decode e stores now = (GResp.badRequest, stores) := by
  intro decode e stores now h
  simp [part003Handler, h]

/-- Witness for c7_missing_phone_amended at a concrete phoneless event. -/
theorem c7_missing_phone_amended_witness :
    part003Handler (fun _ => none)
      { whatsappFrom := "0", eventContactId := "", contactInnerId := "",
        conversationId := "", contactName := "", messageBody := "", context := "" }
      { americanhairline := [], alchemane := [] } 0 =
      (GResp.badRequest, { americanhairline := [], alchemane := [] }) :=
  c7_missing_phone_amended (fun _ => none)
    { whatsappFrom := "0", eventContactId := "", contactInnerId := "",
      conversationId := "", contactName := "", messageBody := "", context := "" }
    { americanhairline := [], alchemane := [] } 0 (by decide)

/-- C8, counterexample: the unconditional store-click of src/server.js lines
482-496 is a plain set, so invoking it on an id that already holds an engaged
record replaces the record (hasEngaged drops back to false) instead of being
a no-op. -/
theorem c8_unconditional_set_counterexample :
    storeClickSet
        [("s1", { source := "fb", phoneNumber := "919", hasEngaged := true,
                  syncedToSheets := true, timestamp := some 1, engagedAt := some 2 })]
        "s1" {} 7 ≠
      [("s1", { source := "fb", phoneNumber := "919", hasEngaged := true,
                syncedToSheets := true, timestamp := some 1, engagedAt := some 2 })] ∧
    (lookFr (storeClickSet
        [("s1", { source := "fb", phoneNumber := "919", hasEngaged := true,
                  syncedToSheets := true, timestamp := some 1, engagedAt := some 2 })]
        "s1" {} 7) "s1").map Session.hasEngaged = some false := by
  constructor <;> decide

/-- C8 (amended): the transactional store-click revision (src/server.js lines
233-260, also part_001 and part_003) is first-write-wins: it creates the
record with hasEngaged false and syncedToSheets false only when absent, is a
no-op on an existing id, and calling it twice equals calling it once; the
unconditional-set revision (src/server.js lines 482-496, part_002, part_004)
instead overwrites an existing record. -/
theorem c8_first_write_wins_amended :
    (∀ coll sid utm now s, lookFr coll sid = some s → storeClickTx coll sid utm now = coll) ∧
    (∀ coll sid utm now, lookFr coll sid = none →
        lookFr (storeClickTx coll sid utm now) sid =
          some { utm with timestamp := some now, hasEngaged := false, syncedToSheets := false }) ∧
    (∀ coll sid utm now utm2 now2,
        storeClickTx (storeClickTx coll sid utm now) sid utm2 now2 =
          storeClickTx coll sid utm now) := by
  refine ⟨?_, ?_, ?_⟩
  · intro coll sid utm now s h
    unfold storeClickTx
    rw [h]
  · intro coll sid utm now h
    unfold storeClickTx
    rw [h]
    exact lookFr_setDoc coll sid _
  · intro coll sid utm now utm2 now2
    rcases h : lookFr coll sid with _ | s
    · unfold storeClickTx
      rw [h, lookFr_setDoc]
    · unfold storeClickTx
      rw [h, h]

/-- Witness for c8_first_write_wins_amended: no-op on an existing id, creation
on a missing id, and idempotence, at concrete stores. -/
theorem c8_first_write_wins_amended_witness :
    storeClickTx [("s1", { source := "fb", hasEngaged := true })] "s1" { source := "ig" } 9 =
      [("s1", { source := "fb", hasEngaged := true })] ∧
    lookFr (storeClickTx [] "s2" { source := "ig" } 9) "s2" =
      some { source := "ig", timestamp := some 9, hasEngaged := false, syncedToSheets := false } ∧
    storeClickTx (storeClickTx [] "s2" { source := "ig" } 9) "s2" { source := "tw" } 11 =
      storeClickTx [] "s2" { source := "ig" } 9 :=
  ⟨c8_first_write_wins_amended.1 [("s1", { source := "fb", hasEngaged := true })] "s1"
      { source := "ig" } 9 { source := "fb", hasEngaged := true } (by decide),
   c8_first_write_wins_amended.2.1 [] "s2" { source := "ig" } 9 (by decide),
   c8_first_write_wins_amended.2.2 [] "s2" { source := "ig" } 9 { source := "tw" } 11⟩

/-- C1, counterexample: the engagement transaction of part_003 lines 240-274
updates unconditionally whenever the document exists, with no check of the
stored hasEngaged flag.  Replaying a delivery against a session that is
already engaged (engagedAt 100, lastMessage old, syncedToSheets true)
overwrites engagedAt with the new server time, phoneNumber and lastMessage
with the new delivery, and resets syncedToSheets to false, so the commit is
not a no-op and the stored record does change. -/
theorem c1_replay_commit_counterexample :
    (lookFr
        (commitEngagement
          [("s1", { hasEngaged := true, engagedAt := some 100, lastMessage := "old",
                    phoneNumber := "91111", syncedToSheets := true })]
          "s1" {} "91222" 200 "context" "americanhairline" "" "" "" "new msg")
        "s1").map (fun r => (r.engagedAt, r.phoneNumber, r.lastMessage, r.syncedToSheets)) =
      some (some 200, "91222", "new msg", false) ∧
    (lookFr
        [("s1", { hasEngaged := true, engagedAt := some 100, lastMessage := "old",
                  phoneNumber := "91111", syncedToSheets := true })]
        "s1").map (fun r => (r.engagedAt, r.phoneNumber, r.lastMessage, r.syncedToSheets)) =
      some (some 100, "91111", "old", true) := by
  constructor <;> decide

/-- C1 (amended): a commit against an existing session always succeeds and
applies the engagement update whether or not the session was already engaged:
the result has hasEngaged true (so the flag never moves back to false and
still flips false to true at most once), but engagedAt is overwritten with the
commit time, phoneNumber with the normalized sender, and syncedToSheets is
reset to false — a replayed delivery therefore changes the stored record
rather than being a no-op. -/
theorem c1_commit_overwrite_amended :
    ∀ coll sid utm phone now attr website cid cvid cname msg s,
      lookFr coll sid = some s →
      lookFr (commitEngagement coll sid utm phone now attr website cid cvid cname msg) sid =
        some (engUpdate phone now attr website cid cvid cname msg s) ∧
      (engUpdate phone now attr website cid cvid cname msg s).hasEngaged = true ∧
      (engUpdate phone now attr website cid cvid cname msg s).engagedAt = some now ∧
      (engUpdate phone now attr website cid cvid cname msg s).phoneNumber = phone ∧
      (engUpdate phone now attr website cid cvid cname msg s).syncedToSheets = false := by
  intro coll sid utm phone now attr website cid cvid cname msg s h
  refine ⟨?_, rfl, rfl, rfl, rfl⟩
  unfold commitEngagement
  rw [h, lookFr_updateDocWith, h]
  rfl

/-- Witness for c1_commit_overwrite_amended at the concrete replayed
delivery. -/
theorem c1_commit_overwrite_amended_witness :
    lookFr
        (commitEngagement
          [("s1", { hasEngaged := true, engagedAt := some 100, lastMessage := "old",
                    phoneNumber := "91111", syncedToSheets := true })]
          "s1" {} "91222" 200 "context" "americanhairline" "" "" "" "new msg")
        "s1" =
      some (engUpdate "91222" 200 "context" "americanhairline" "" "" "" "new msg"
        { hasEngaged := true, engagedAt := some 100, lastMessage := "old",
          phoneNumber := "91111", syncedToSheets := true }) ∧
    (engUpdate "91222" 200 "context" "americanhairline" "" "" "" "new msg"
        { hasEngaged := true, engagedAt := some 100, lastMessage := "old",
          phoneNumber := "91111", syncedToSheets := true }).hasEngaged = true :=
  ⟨(c1_commit_overwrite_amended
      [("s1", { hasEngaged := true, engagedAt := some 100, lastMessage := "old",
                phoneNumber := "91111", syncedToSheets := true })]
      "s1" {} "91222" 200 "context" "americanhairline" "" "" "" "new msg"
      { hasEngaged := true, engagedAt := some 100, lastMessage := "old",
        phoneNumber := "91111", syncedToSheets := true } (by decide)).1,
   (c1_commit_overwrite_amended
      [("s1", { hasEngaged := true, engagedAt := some 100, lastMessage := "old",
                phoneNumber := "91111", syncedToSheets := true })]
      "s1" {} "91222" 200 "context" "americanhairline" "" "" "" "new msg"
      { hasEngaged := true, engagedAt := some 100, lastMessage := "old",
        phoneNumber := "91111", syncedToSheets := true } (by decide)).2.1⟩

theorem lookFr_mem {coll : List (String × Session)} {id : String} {s : Session}
    (h : lookFr coll id = some s) : (id, s) ∈ coll := by
  induction coll with
  | nil => cases h
  | cons p ps ih =>
    by_cases hk : p.1 = id
    · rw [lookFr, if_pos hk] at h
      have hs : p.2 = s := by simpa using h
      have : p = (id, s) := Prod.ext hk hs
      rw [← this]
      exact List.mem_cons_self p ps
    · rw [lookFr, if_neg hk] at h
      exact List.mem_cons_of_mem p (ih h)

theorem eq_of_keysNodup {coll : List (String × Session)}
    (hnd : (coll.map Prod.fst).Nodup) {a b : String × Session}
    (ha : a ∈ coll) (hb : b ∈ coll) (hk : a.1 = b.1) : a = b := by
  induction coll with
  | nil => cases ha
  | cons p ps ih =>
    rw [List.map_cons, List.nodup_cons] at hnd
    rcases List.mem_cons.mp ha with rfl | ha2
    · rcases List.mem_cons.mp hb with rfl | hb2
      · rfl
      · exact absurd (hk ▸ List.mem_map_of_mem Prod.fst hb2) hnd.1
    · rcases List.mem_cons.mp hb with rfl | hb2
      · exact absurd (hk ▸ List.mem_map_of_mem Prod.fst ha2) hnd.1
      · exact ih hnd.2 ha2 hb2

theorem lookFr_map_mark (ids : List String) (now : Nat)
    (coll : List (String × Session)) (id : String) :
    lookFr (coll.map fun p =>
        if p.1 ∈ ids then (p.1, { p.2 with syncedToSheets := true, lastSynced := some now })
        else p) id =
      (lookFr coll id).map fun s =>
        if id ∈ ids then { s with syncedToSheets := true, lastSynced := some now } else s := by
  induction coll with
  | nil => rfl
  | cons p ps ih =>
    by_cases hk : p.1 = id
    · by_cases hm : p.1 ∈ ids
      · simp [lookFr, hk, hm, hk ▸ hm]
      · have hm2 : id ∉ ids := hk ▸ hm
        simp [lookFr, hk, hm, hm2]
    · by_cases hm : p.1 ∈ ids
      · simp [lookFr, hk, hm, ih]
      · simp [lookFr, hk, hm, ih]

/-- C4, counterexample: syncedToSheets is not monotonic.  The engagement
update of part_003 (lines 242-253) contains syncedToSheets false
unconditionally, so committing an engagement against a record that is already
synced flips the flag from true back to false. -/
theorem c4_synced_reset_counterexample :
    ({ hasEngaged := true, syncedToSheets := true, engagedAt := some 50 : Session }).syncedToSheets = true ∧
    (engUpdate "91333" 300 "context" "americanhairline" "" "" "" "msg"
        { hasEngaged := true, syncedToSheets := true, engagedAt := some 50 }).syncedToSheets = false := by
  constructor <;> decide

/-- C4 (amended): within the export sync itself the flag behaves as claimed:
marking a batch synced (src/google-sheets-sync.js lines 143-161) either
leaves a record unchanged or sets syncedToSheets true together with a
lastSynced time, and it does the latter only for a record that had hasEngaged
true, syncedToSheets false and a non-direct source; the sync never unsets the
flag.  The flag is nevertheless not globally monotonic, because the
engagement commit resets it to false (see the counterexample). -/
theorem c4_mark_synced_amended :
    ∀ coll now id s s',
      (coll.map Prod.fst).Nodup →
      lookFr coll id = some s →
      lookFr (markSynced coll now) id = some s' →
      s' = s ∨
        (s' = { s with syncedToSheets := true, lastSynced := some now } ∧
          s.hasEngaged = true ∧ s.syncedToSheets = false ∧ s.source ≠ "direct_message") := by
  intro coll now id s s' hnd hs hs'
  unfold markSynced at hs'
  rw [lookFr_map_mark, hs] at hs'
  replace hs' :
      (if id ∈ ((((coll.filter engagedFilter).take 250).filter
          fun p => !(p.2.source == "direct_message")).map (·.1)) then
        { s with syncedToSheets := true, lastSynced := some now } else s) = s' := by
    simpa using hs'
  by_cases hm : id ∈ ((((coll.filter engagedFilter).take 250).filter
      fun p => !(p.2.source == "direct_message")).map (·.1))
  · right
    rw [if_pos hm] at hs'
    rcases List.mem_map.mp hm with ⟨q, hq, hqid⟩
    have hq2 := List.mem_filter.mp hq
    have hq3 : q ∈ coll.filter engagedFilter := List.mem_of_mem_take hq2.1
    have hq4 := List.mem_filter.mp hq3
    have hqeq : q = (id, s) := eq_of_keysNodup hnd hq4.1 (lookFr_mem hs) hqid
    have hef : engagedFilter (id, s) = true := hqeq ▸ hq4.2
    unfold engagedFilter at hef
    simp only [Bool.and_eq_true, Bool.not_eq_true', beq_eq_false_iff_ne] at hef
    exact ⟨hs'.symm, hef.1.1, hef.1.2, hef.2⟩
  · left
    rw [if_neg hm] at hs'
    exact hs'.symm

/-- Witness for c4_mark_synced_amended: one engaged unsynced record is marked
by the sync. -/
theorem c4_mark_synced_amended_witness :
    ({ source := "fb", hasEngaged := true, syncedToSheets := true, lastSynced := some 9 : Session }) =
      { source := "fb", hasEngaged := true, syncedToSheets := false : Session } ∨
      (({ source := "fb", hasEngaged := true, syncedToSheets := true, lastSynced := some 9 : Session }) =
          { ({ source := "fb", hasEngaged := true, syncedToSheets := false : Session }) with
              syncedToSheets := true, lastSynced := some 9 } ∧
        ({ source := "fb", hasEngaged := true, syncedToSheets := false : Session }).hasEngaged = true ∧
        ({ source := "fb", hasEngaged := true, syncedToSheets := false : Session }).syncedToSheets = false ∧
        ({ source := "fb", hasEngaged := true, syncedToSheets := false : Session }).source ≠ "direct_message") :=
  c4_mark_synced_amended
    [("d1", { source := "fb", hasEngaged := true, syncedToSheets := false })] 9 "d1"
    { source := "fb", hasEngaged := true, syncedToSheets := false }
    { source := "fb", hasEngaged := true, syncedToSheets := true, lastSynced := some 9 }
    (by decide) (by decide) (by decide)

/-- C3, counterexample: the realtime listener of src/unnamed/part_000 (lines
248-301) first awaits the updates that mark every document of the batch
syncedToSheets true and only afterwards issues the append-rows call, so a
record is marked synced before its row has been appended — the opposite of
the claimed order, and a run whose append then fails loses those rows. -/
theorem c3_part000_mark_before_append_counterexample :
    part000RealtimeSteps (fun _ => [["r"]])
        [("a", { hasEngaged := true, syncedToSheets := false, source := "fb" })] =
      [SyncStep.markDocs ["a"], SyncStep.appendRows [["r"]]] := by
  decide

/-- C3 (amended): in the scheduled batch sync of src/google-sheets-sync.js
(syncDatabaseToSheet) and in that module's own realtime listener, every
mark-synced step is preceded by an append-rows step (append first, then
mark, giving at-least-once export); the realtime listener of part_000
however marks the records synced before appending, and so does not satisfy
the property — it holds for the src/google-sheets-sync.js revision only. -/
theorem c3_append_before_mark_amended :
    (∀ iso now coll i ids,
        (syncDatabaseToSheetSteps iso now coll)[i]? = some (SyncStep.markDocs ids) →
        ∃ j : Nat, ∃ rows, j < i ∧
          (syncDatabaseToSheetSteps iso now coll)[j]? = some (SyncStep.appendRows rows)) ∧
    (∀ iso now snap i ids,
        (gssRealtimeSteps iso now snap)[i]? = some (SyncStep.markDocs ids) →
        ∃ j : Nat, ∃ rows, j < i ∧
          (gssRealtimeSteps iso now snap)[j]? = some (SyncStep.appendRows rows)) := by
  constructor
  · intro iso now coll i ids h
    unfold syncDatabaseToSheetSteps at *
    by_cases h1 : ((coll.filter engagedFilter).take 250).isEmpty = true
    · rw [if_pos h1] at h
      simp at h
    · rw [if_neg h1] at h ⊢
      by_cases h2 : (convertToSheetRows iso now
          (((coll.filter engagedFilter).take 250).map (·.2))).isEmpty = true
      · rw [if_pos h2] at h
        simp at h
      · rw [if_neg h2] at h ⊢
        match i with
        | 0 => simp at h
        | 1 =>
          exact ⟨0, convertToSheetRows iso now (((coll.filter engagedFilter).take 250).map (·.2)),
            Nat.zero_lt_one, by simp⟩
        | n + 2 => simp at h
  · intro iso now snap i ids h
    unfold gssRealtimeSteps at *
    by_cases h1 : snap.isEmpty = true
    · rw [if_pos h1] at h
      simp at h
    · rw [if_neg h1] at h ⊢
      by_cases h2 : (convertToSheetRows iso now (snap.map (·.2))).isEmpty = true
      · rw [if_pos h2] at h
        simp at h
      · rw [if_neg h2] at h ⊢
        match i with
        | 0 => simp at h
        | 1 =>
          exact ⟨0, convertToSheetRows iso now (snap.map (·.2)), Nat.zero_lt_one, by simp⟩
        | n + 2 => simp at h

/-- Witness for c3_append_before_mark_amended: both conjuncts applied to a
one-document store where a mark step exists at index one. -/
theorem c3_append_before_mark_amended_witness :
    (∃ j : Nat, ∃ rows, j < 1 ∧
      (syncDatabaseToSheetSteps (fun _ => "t") 9
        [("a", { hasEngaged := true, syncedToSheets := false, source := "fb" })])[j]? =
        some (SyncStep.appendRows rows)) ∧
    (∃ j : Nat, ∃ rows, j < 1 ∧
      (gssRealtimeSteps (fun _ => "t") 9
        [("a", { hasEngaged := true, syncedToSheets := false, source := "fb" })])[j]? =
        some (SyncStep.appendRows rows)) :=
  ⟨c3_append_before_mark_amended.1 (fun _ => "t") 9
      [("a", { hasEngaged := true, syncedToSheets := false, source := "fb" })] 1 ["a"]
      (by decide),
   c3_append_before_mark_amended.2 (fun _ => "t") 9
      [("a", { hasEngaged := true, syncedToSheets := false, source := "fb" })] 1 ["a"]
      (by decide)⟩

/-- C9, counterexample: convertToSheetRows of src/google-sheets-sync.js maps
a document whose source is direct_message to null and filters it out, so not
every stored record produces a row — a direct-message record produces none. -/
theorem c9_direct_message_skipped_counterexample :
    convertToSheetRows (fun _ => "t") 0
        [{ source := "direct_message", hasEngaged := true, phoneNumber := "919" }] = [] := by
  decide

/-- C9 (amended): for every stored record whose source is not direct_message
(direct-message records are skipped entirely), convertToSheetRows produces
exactly one row; every produced row has fourteen cells, the last-message cell
is truncated to at most 150 characters with every newline replaced by a
space, and a record with all optional fields absent yields the documented
default string in every column. -/
theorem c9_row_fallbacks_amended :
    (∀ iso now d, d.source ≠ "direct_message" →
        convertToSheetRows iso now [d] = [toSheetRow iso now d]) ∧
    (∀ iso now d, (toSheetRow iso now d).length = 14) ∧
    (∀ iso now d, ∃ c, (toSheetRow iso now d).getLast? = some c ∧
        c.length ≤ 150 ∧ ∀ ch ∈ c.data, ch ≠ '\n') ∧
    (∀ iso now, toSheetRow iso now {} =
        [iso now, "N/A", "direct", "organic", "none", "none", "N/A", "❌ NO", "N/A",
         "unknown", "N/A", "N/A", "Anonymous", "No text"]) := by
  refine ⟨?_, ?_, ?_, ?_⟩
  · intro iso now d h
    unfold convertToSheetRows
    simp [h]
  · intro iso now d
    rfl
  · intro iso now d
    refine ⟨replNl (jsSubstr (jsOr d.lastMessage "No text") 150), rfl, ?_, ?_⟩
    · show (((jsOr d.lastMessage "No text").data.take 150).map
          (fun c => if c = '\n' then ' ' else c)).length ≤ 150
      rw [List.length_map, List.length_take]
      exact Nat.min_le_left _ _
    · intro ch hch
      rcases List.mem_map.mp hch with ⟨a, _, rfl⟩
      by_cases ha : a = '\n'
      · simp [ha]
      · simp [ha]
  · intro iso now
    rfl

/-- Witness for c9_row_fallbacks_amended: the all-defaults record is
converted to its single default row. -/
theorem c9_row_fallbacks_amended_witness :
    convertToSheetRows (fun _ => "t") 0 [{}] = [toSheetRow (fun _ => "t") 0 {}] :=
  c9_row_fallbacks_amended.1 (fun _ => "t") 0 {} (by decide)

/-!
Lemmas about the context resolution step of the part_003 handler.
-/

theorem ctxResolve_session_id {decode : String → Option Ctx} {tok : String} {c : Ctx}
    (h : ctxResolve decode tok = some c) : c.session_id ≠ "" := by
  unfold ctxResolve at h
  by_cases h0 : tok = ""
  · rw [if_pos h0] at h
    cases h
  · rw [if_neg h0] at h
    rcases hd : decode tok with _ | c'
    · rw [hd] at h
      cases h
    · rw [hd] at h
      by_cases hs : c'.session_id = ""
      · simp [hs] at h
      · simp [hs] at h
        exact h ▸ hs

theorem ctxResolve_eq_some {decode : String → Option Ctx} {tok : String} {c : Ctx}
    (h0 : tok ≠ "") (hd : decode tok = some c) (hs : c.session_id ≠ "") :
    ctxResolve decode tok = some c := by
  unfold ctxResolve
  rw [if_neg h0, hd]
  simp [hs]

theorem ctxResolve_eq_none {decode : String → Option Ctx} {tok : String}
    (h : tok = "" ∨ decode tok = none ∨ (∃ c, decode tok = some c ∧ c.session_id = "")) :
    ctxResolve decode tok = none := by
  unfold ctxResolve
  rcases h with h0 | hd | ⟨c, hd, hs⟩
  · rw [if_pos h0]
  · by_cases h0 : tok = ""
    · rw [if_pos h0]
    · rw [if_neg h0, hd]
  · by_cases h0 : tok = ""
    · rw [if_pos h0]
    · rw [if_neg h0, hd]
      simp [hs]

/-- Reduction of the part_003 handler when the context token resolves: the
decoded session id is adopted, the direct-message skip does not fire when the
decoded source differs from direct_message, both query strategies are guarded
off by the non-empty session id, and the engagement commit runs. -/
theorem part003_fst_with_ctx {decode : String → Option Ctx} {e : GEvent}
    {stores : Stores} {now : Nat} {c : Ctx}
    (hctx : ctxResolve decode e.context = some c)
    (hp : normalizePhone e.whatsappFrom ≠ "")
    (hsrc : c.source ≠ "direct_message") :
    (part003Handler decode e stores now).1 =
      GResp.processed c.session_id c.source "context" (jsOr c.website "americanhairline") := by
  have hsid := ctxResolve_session_id hctx
  unfold part003Handler
  rw [if_neg hp, hctx]
  simp [ctxUtm, hsrc, hsid]

/-- C2, counterexample: a context token that decodes to a record with a
non-empty session id but source direct_message makes the part_003 handler
return skipped_direct_message without touching the store, even though a
phone-match candidate exists — the resolver does not return that session with
attribution context as the claim states for every such event. -/
theorem c2_direct_source_token_counterexample :
    part003Handler (fun _ => some { session_id := "s1", source := "direct_message" })
        { whatsappFrom := "8", eventContactId := "", contactInnerId := "",
          conversationId := "", contactName := "", messageBody := "hi", context := "tok" }
        { americanhairline := [("p1", { phoneNumber := "918", hasEngaged := false, timestamp := some 5 })],
          alchemane := [] } 9 =
      (GResp.skippedDirect "americanhairline",
       { americanhairline := [("p1", { phoneNumber := "918", hasEngaged := false, timestamp := some 5 })],
         alchemane := [] }) := by
  decide

/-- C2 (amended): for every inbound event carrying a sender phone and a
context token that decodes to a record with a non-empty session id and a
source other than direct_message, the handler returns that session with
attribution context — regardless of the store contents, so a phone-match
candidate is never consulted; when the decoded source is direct_message the
event is skipped instead (and the query strategies still never run). -/
theorem c2_context_priority_amended :
    ∀ decode e stores now c,
      e.context ≠ "" →
      decode e.context = some c →
      c.session_id ≠ "" →
      c.source ≠ "direct_message" →
      normalizePhone e.whatsappFrom ≠ "" →
      (part003Handler decode e stores now).1 =
        GResp.processed c.session_id c.source "context" (jsOr c.website "americanhairline") :=
  fun _ _ _ _ _ h0 hd hs hsrc hp =>
    part003_fst_with_ctx (ctxResolve_eq_some h0 hd hs) hp hsrc

/-- Witness for c2_context_priority_amended at a concrete token event. -/
theorem c2_context_priority_amended_witness :
    (part003Handler (fun _ => some { session_id := "s1", source := "fb" })
        { whatsappFrom := "8", eventContactId := "", contactInnerId := "",
          conversationId := "", contactName := "", messageBody := "hi", context := "tok" }
        { americanhairline := [("p1", { phoneNumber := "918", hasEngaged := false, timestamp := some 5 })],
          alchemane := [] } 9).1 =
      GResp.processed "s1" "fb" "context" (jsOr "" "americanhairline") :=
  c2_context_priority_amended (fun _ => some { session_id := "s1", source := "fb" })
    { whatsappFrom := "8", eventContactId := "", contactInnerId := "",
      conversationId := "", contactName := "", messageBody := "hi", context := "tok" }
    { americanhairline := [("p1", { phoneNumber := "918", hasEngaged := false, timestamp := some 5 })],
      alchemane := [] } 9 { session_id := "s1", source := "fb" }
    (by decide) (by decide) (by decide) (by decide) (by decide)

/-- C10, counterexample: an event with no context token but also no
extractable sender phone is answered HTTP 400, not 200 skipped, so the claim
needs the qualification that the event carries a sender phone. -/
theorem c10_missing_phone_counterexample :
    part003Handler (fun _ => none)
        { whatsappFrom := "", eventContactId := "", contactInnerId := "",
          conversationId := "", contactName := "", messageBody := "hi", context := "" }
        { americanhairline := [], alchemane := [] } 3 =
      (GResp.badRequest, { americanhairline := [], alchemane := [] }) ∧
    GResp.badRequest ≠ GResp.skippedDirect "americanhairline" := by
  constructor <;> decide

/-- C10 (amended): for every event carrying a sender phone whose context
token is absent, fails to decode, or decodes without a session id, the
part_003 handler answers 200 skipped_direct_message and leaves the store
untouched; and on every input whatsoever the handler never produces a
gallabox_id_match or phone_match attribution — the channel-identifier and
phone-match branches are dead code in this revision. -/
theorem c10_direct_skip_amended :
    (∀ decode e stores now,
        normalizePhone e.whatsappFrom ≠ "" →
        (e.context = "" ∨ decode e.context = none ∨
          (∃ c, decode e.context = some c ∧ c.session_id = "")) →
        part003Handler decode e stores now = (GResp.skippedDirect "americanhairline", stores)) ∧
    (∀ decode e stores now sid src w,
        (part003Handler decode e stores now).1 ≠ GResp.processed sid src "gallabox_id_match" w ∧
        (part003Handler decode e stores now).1 ≠ GResp.processed sid src "phone_match" w) := by
  constructor
  · intro decode e stores now hp hc
    have hnone := ctxResolve_eq_none hc
    unfold part003Handler
    rw [if_neg hp, hnone]
    simp [directUtm]
  · intro decode e stores now sid src w
    by_cases hp : normalizePhone e.whatsappFrom = ""
    · have hbr : (part003Handler decode e stores now).1 = GResp.badRequest := by
        simp [part003Handler, hp]
      rw [hbr]
      exact ⟨fun h => GResp.noConfusion h, fun h => GResp.noConfusion h⟩
    · rcases hctx : ctxResolve decode e.context with _ | c
      · have hsk : (part003Handler decode e stores now).1 =
            GResp.skippedDirect "americanhairline" := by
          unfold part003Handler
          rw [if_neg hp, hctx]
          simp [directUtm]
        rw [hsk]
        exact ⟨fun h => GResp.noConfusion h, fun h => GResp.noConfusion h⟩
      · by_cases hsrc : c.source = "direct_message"
        · have hsk : (part003Handler decode e stores now).1 =
              GResp.skippedDirect (jsOr c.website "americanhairline") := by
            unfold part003Handler
            rw [if_neg hp, hctx]
            simp [ctxUtm, hsrc]
          rw [hsk]
          exact ⟨fun h => GResp.noConfusion h, fun h => GResp.noConfusion h⟩
        · rw [part003_fst_with_ctx hctx hp hsrc]
          constructor
          · intro h
            have h3 := ((GResp.processed.injEq _ _ _ _ _ _ _ _).mp h).2.2.1
            exact absurd h3 (by decide)
          · intro h
            have h3 := ((GResp.processed.injEq _ _ _ _ _ _ _ _).mp h).2.2.1
            exact absurd h3 (by decide)

/-- Witness for c10_direct_skip_amended: a token-free event with a phone is
skipped with the store unchanged, and its response is not a gallabox id
match. -/
theorem c10_direct_skip_amended_witness :
    part003Handler (fun _ => none)
        { whatsappFrom := "8", eventContactId := "c9", contactInnerId := "",
          conversationId := "v7", contactName := "n", messageBody := "hi", context := "" }
        { americanhairline := [("p1", { phoneNumber := "918", hasEngaged := false, timestamp := some 5 })],
          alchemane := [] } 4 =
      (GResp.skippedDirect "americanhairline",
       { americanhairline := [("p1", { phoneNumber := "918", hasEngaged := false, timestamp := some 5 })],
         alchemane := [] }) ∧
    (part003Handler (fun _ => none)
        { whatsappFrom := "8", eventContactId := "c9", contactInnerId := "",
          conversationId := "v7", contactName := "n", messageBody := "hi", context := "" }
        { americanhairline := [("p1", { phoneNumber := "918", hasEngaged := false, timestamp := some 5 })],
          alchemane := [] } 4).1 ≠ GResp.processed "x" "y" "gallabox_id_match" "w" :=
  ⟨c10_direct_skip_amended.1 (fun _ => none)
      { whatsappFrom := "8", eventContactId := "c9", contactInnerId := "",
        conversationId := "v7", contactName := "n", messageBody := "hi", context := "" }
      { americanhairline := [("p1", { phoneNumber := "918", hasEngaged := false, timestamp := some 5 })],
        alchemane := [] } 4 (by decide) (Or.inl rfl),
   (c10_direct_skip_amended.2 (fun _ => none)
      { whatsappFrom := "8", eventContactId := "c9", contactInnerId := "",
        conversationId := "v7", contactName := "n", messageBody := "hi", context := "" }
      { americanhairline := [("p1", { phoneNumber := "918", hasEngaged := false, timestamp := some 5 })],
        alchemane := [] } 4 "x" "y" "w").1⟩

/-- C5 (confirmed): a channel-identifier match is only ever a session with
hasEngaged false created within the five-minute window, and it is the newest
such candidate (the head of the newest-first batch of at most five); when
every unengaged candidate is older than the window the strategy returns no
match and the waterfall falls through to the phone-match result (or direct
when that also finds nothing). -/
theorem c5_recency_bound :
    (∀ coll now id s, gallaboxIdMatch coll now = some (id, s) →
        s.hasEngaged = false ∧
        ∃ t, s.timestamp = some t ∧ now - 5 * 60 * 1000 ≤ t ∧
          ∀ q ∈ coll, q.2.hasEngaged = false → ∀ u, q.2.timestamp = some u →
            now - 5 * 60 * 1000 ≤ u → u ≤ t) ∧
    (∀ coll contactId conversationId phone now,
        (∀ p ∈ coll, p.2.hasEngaged = false → ∀ t, p.2.timestamp = some t →
          t < now - 5 * 60 * 1000) →
        gallaboxIdMatch coll now = none ∧
        resolve23 coll contactId conversationId phone now =
          (match phoneMatch coll phone with
           | some (id, s) => some (id, s, "phone_match")
           | none => none)) := by
  constructor
  · intro coll now id s h
    exact gallaboxIdMatch_sound h
  · intro coll cid cvid phone now h
    have hg := gallaboxIdMatch_none h
    refine ⟨hg, ?_⟩
    unfold resolve23
    by_cases hid : cid ≠ "" ∨ cvid ≠ ""
    · rw [if_pos hid, hg]
    · rw [if_neg hid]

/-- Witness for c5_recency_bound: a store whose only unengaged candidate is
older than the window falls through to the phone strategy, and a store with a
candidate inside the window yields an unengaged match. -/
theorem c5_recency_bound_witness :
    (gallaboxIdMatch [("x", { hasEngaged := false, timestamp := some 10 })] 1000000 = none ∧
      resolve23 [("x", { hasEngaged := false, timestamp := some 10 })] "cid" "" "p" 1000000 =
        (match phoneMatch [("x", { hasEngaged := false, timestamp := some 10 })] "p" with
         | some (id, s) => some (id, s, "phone_match")
         | none => none)) ∧
    ({ hasEngaged := false, timestamp := some 999000 : Session }).hasEngaged = false :=
  ⟨c5_recency_bound.2 [("x", { hasEngaged := false, timestamp := some 10 })] "cid" "" "p" 1000000
      (by decide),
   (c5_recency_bound.1 [("y", { hasEngaged := false, timestamp := some 999000 })] 1000000 "y"
      { hasEngaged := false, timestamp := some 999000 } (by decide)).1⟩
